import Mathlib

/-!
Verification of the Dreambooth fine-tuning orchestration core
(`src/finetune.py`) against its natural-language specification.

Tensors are shallowly embedded as lists of rationals: a batch is a
`List (List ℚ)` where each inner list is one example flattened over its
non-batch dimensions.  Arithmetic is exact (ℚ), matching the spec's use of
"exactly" for algebraic identities between losses.
-/

namespace Dreambooth

/-- Sum of squared differences of two (flattened) tensors, elementwise over
their zip — the numerator of `F.mse_loss`. -/
def sqDiffSum (p t : List ℚ) : ℚ :=
  ((p.zip t).map (fun x => (x.1 - x.2) ^ 2)).sum

/-- `F.mse_loss(p, t, reduction="mean")` on flattened tensors: total squared
difference divided by the number of elements. -/
def mseMeanFlat (p t : List ℚ) : ℚ :=
  sqDiffSum p t / (p.length : ℚ)

/-- `F.mse_loss(pred, target, reduction="mean")` on a batch: the tensors are
flattened over all dimensions, batch included (finetune.py line 677 / 672). -/
def mseLossMean (pred target : List (List ℚ)) : ℚ :=
  mseMeanFlat pred.flatten target.flatten

/-- Per-example mean squared error: `.mean([1, 2, 3])` of
`F.mse_loss(..., reduction="none")` (finetune.py line 669). -/
def msePerExample (p t : List ℚ) : ℚ :=
  sqDiffSum p t / (p.length : ℚ)

/-- Mean of a list of rationals (`.mean()` over the batch dimension). -/
def meanList (l : List ℚ) : ℚ :=
  l.sum / (l.length : ℚ)

/-- `F.mse_loss(pred, target, reduction="none").mean([1,2,3]).mean()`:
the instance loss of finetune.py line 669. -/
def predLossCode (pred target : List (List ℚ)) : ℚ :=
  meanList ((pred.zip target).map (fun x => msePerExample x.1 x.2))

/-- `torch.chunk(l, 2, dim=0)`: splits into two chunks, the first of size
`⌈n/2⌉` (finetune.py lines 665-666). -/
def chunk2 (l : List α) : List α × List α :=
  (l.take ((l.length + 1) / 2), l.drop ((l.length + 1) / 2))

/-- The loss computation of finetune.py lines 663-677: with prior
preservation, chunk prediction and target in two along the batch dimension,
instance loss on the first halves, prior loss on the second halves,
total = instance + weight * prior; without it, plain mean MSE. -/
def computeLoss (pred target : List (List ℚ)) (withPriorPreservation : Bool)
    (priorLossWeight : ℚ) : ℚ :=
  if withPriorPreservation then
    let modelPredChunks := chunk2 pred
    let targetChunks := chunk2 target
    let pred_loss := predLossCode modelPredChunks.1 targetChunks.1
    let prior_loss := mseLossMean modelPredChunks.2 targetChunks.2
    pred_loss + priorLossWeight * prior_loss
  else
    mseLossMean pred target

/-- Spec-side "plain mean-squared error of prediction vs. target over all
elements": sum of per-example squared-difference sums divided by the total
element count, written elementwise over the zipped batch (not via flatten),
so it can be compared with the code-side `mseLossMean`. -/
def specMeanSquaredError (pred target : List (List ℚ)) : ℚ :=
  (((pred.zip target).map (fun x => sqDiffSum x.1 x.2)).sum) /
    ((((pred.zip target).map (fun x => x.1.length)).sum : ℕ) : ℚ)

/-- Spec-side "mean over the instance batch of the per-example mean-squared
error". -/
def specPredLoss (pred target : List (List ℚ)) : ℚ :=
  meanList ((pred.zip target).map (fun x => msePerExample x.1 x.2))

/-- Shape agreement between two batches: same batch length and equal
per-example element counts. -/
def SameShape (pred target : List (List ℚ)) : Prop :=
  List.Forall₂ (fun x y => x.length = y.length) pred target

theorem sqDiffSum_append {a b c d : List ℚ} (h : a.length = c.length) :
    sqDiffSum (a ++ b) (c ++ d) = sqDiffSum a c + sqDiffSum b d := by
  unfold sqDiffSum
  rw [List.zip_append h, List.map_append, List.sum_append]

theorem flatten_length_eq {pred target : List (List ℚ)}
    (h : SameShape pred target) :
    pred.flatten.length = ((pred.zip target).map (fun x => x.1.length)).sum := by
  induction h with
  | nil => simp
  | cons hl _ ih =>
      simp only [List.flatten_cons, List.length_append, List.zip_cons_cons,
        List.map_cons, List.sum_cons, ih]

theorem sqDiffSum_flatten {pred target : List (List ℚ)}
    (h : SameShape pred target) :
    sqDiffSum pred.flatten target.flatten =
      ((pred.zip target).map (fun x => sqDiffSum x.1 x.2)).sum := by
  induction h with
  | nil => simp [sqDiffSum]
  | cons hl _ ih =>
      simp only [List.flatten_cons, List.zip_cons_cons, List.map_cons,
        List.sum_cons, sqDiffSum_append hl, ih]

/-- The code-side flatten-based mean MSE agrees with the spec-side
"over all elements" mean-squared error whenever shapes agree. -/
theorem mseLossMean_eq_spec {pred target : List (List ℚ)}
    (h : SameShape pred target) :
    mseLossMean pred target = specMeanSquaredError pred target := by
  unfold mseLossMean mseMeanFlat specMeanSquaredError
  rw [sqDiffSum_flatten h, flatten_length_eq h]

theorem sameShape_take {pred target : List (List ℚ)} (n : ℕ)
    (h : SameShape pred target) : SameShape (pred.take n) (target.take n) :=
  List.forall₂_take n h

theorem sameShape_drop {pred target : List (List ℚ)} (n : ℕ)
    (h : SameShape pred target) : SameShape (pred.drop n) (target.drop n) :=
  List.forall₂_drop n h

theorem chunk2_even_length {α : Type} (l : List α) (B : ℕ)
    (h : l.length = 2 * B) :
    chunk2 l = (l.take B, l.drop B) := by
  unfold chunk2
  rw [h]
  have : (2 * B + 1) / 2 = B := by omega
  rw [this]

/-- C1: with prior preservation disabled the training loss is the plain
mean-squared error of prediction vs. target over all elements; with it
enabled, prediction and target are split at the batch midpoint into
(instance, prior) halves, and the total loss is exactly
`pred_loss + prior_weight * prior_loss`, where `pred_loss` is the mean over
the instance batch of the per-example MSE and `prior_loss` the MSE over the
full prior half — for any prior weight (in particular 0, 1 and 5/2). -/
theorem c1_loss_formula (pred target : List (List ℚ)) (w : ℚ) (B : ℕ)
    (hp : pred.length = 2 * B) (ht : target.length = 2 * B)
    (hs : SameShape pred target) :
    computeLoss pred target false w = specMeanSquaredError pred target ∧
    computeLoss pred target true w =
      specPredLoss (pred.take B) (target.take B)
        + w * specMeanSquaredError (pred.drop B) (target.drop B) := by
  constructor
  · simp only [computeLoss, Bool.false_eq_true, if_false]
    exact mseLossMean_eq_spec hs
  · simp only [computeLoss, if_true]
    rw [chunk2_even_length pred B hp, chunk2_even_length target B ht]
    simp only []
    rw [mseLossMean_eq_spec (sameShape_drop B hs)]
    rfl

/-- Witness for C1 at a concrete batch of four one-element examples. -/
theorem c1_loss_formula_witness :
    computeLoss [[1, 2], [3, 4]] [[0, 0], [1, 1]] false (5/2)
        = specMeanSquaredError [[1, 2], [3, 4]] [[0, 0], [1, 1]] ∧
    computeLoss [[1, 2], [3, 4]] [[0, 0], [1, 1]] true (5/2)
        = specPredLoss [[1, 2]] [[0, 0]]
            + (5/2) * specMeanSquaredError [[3, 4]] [[1, 1]] := by
  have h := c1_loss_formula [[1, 2], [3, 4]] [[0, 0], [1, 1]] (5/2) 1 rfl rfl
    (List.Forall₂.cons rfl (List.Forall₂.cons rfl List.Forall₂.nil))
  simpa using h

/-- Configuration of `finetune.py` restricted to the fields the
orchestration claims depend on (a subset of `parse_args`). The two
`...TrainableParams` fields abstract the result of
`set_trainable_parameters`: the number of parameters of each model with
`requires_grad` set after trainable-parameter selection (lines 301-311). -/
structure Args where
  withPriorPreservation : Bool
  classDataDir : Option String
  classPrompt : Option String
  unetTrainableParams : ℕ
  textTrainableParams : ℕ
  predictionType : String
  useEma : Bool
  gradientAccumulationSteps : ℕ
  maxTrainSteps : ℕ
  numExamples : ℕ
  trainBatchSize : ℕ
  saveInterval : ℕ
  saveMinSteps : ℕ
  loraUnetLayer : Option String
  saveNSample : ℕ
  conditioningDropoutProb : ℚ
deriving Repr

/-- Fatal errors raised by `main` (all `ValueError` in the source). -/
inductive TrainError where
  | missingClassDataDir
  | missingClassPrompt
  | nothingToTrain
  | unknownPredictionType (kind : String)
deriving DecidableEq, Repr

/-- Observable events of a run of `main`, in program order. -/
inductive Event where
  | modelLoaded
  | forwardPass
  | lossComputed
  | optimizerStep
  | emaStep
  | globalStepInc
  | saveInvoked (step : ℕ)
deriving DecidableEq, Repr

/-- State threaded through the training loop of `main`: the `global_step`
counter (line 614), the accelerate micro-batch counter, the trace of events
so far, and the pending fatal error if one was raised. -/
structure LoopState where
  globalStep : ℕ
  micro : ℕ
  events : List Event
  failed : Option TrainError
deriving Repr

/-- The prior-preservation argument checks at the very top of `main`
(lines 83-87), before any model is loaded or compute scheduled. -/
def priorPresCheck (a : Args) : Option TrainError :=
  if a.withPriorPreservation then
    if a.classDataDir = none then some TrainError.missingClassDataDir
    else if a.classPrompt = none then some TrainError.missingClassPrompt
    else none
  else none

/-- Setup phase of `main`: argument checks (lines 83-87), loading of the
text encoder, VAE and unet (lines 195, 234, 240), trainable-parameter
selection, and the no-trainable-parameters check (lines 301-320). -/
def setupState (a : Args) : LoopState :=
  match priorPresCheck a with
  | some e => ⟨0, 0, [], some e⟩
  | none =>
      let ev := [Event.modelLoaded, Event.modelLoaded, Event.modelLoaded]
      if a.unetTrainableParams = 0 ∧ a.textTrainableParams = 0 then
        ⟨0, 0, ev, some TrainError.nothingToTrain⟩
      else
        ⟨0, 0, ev, none⟩

/-- `len(train_dataloader)`: number of micro-batches per epoch,
`⌈numExamples / trainBatchSize⌉`. -/
def numBatches (a : Args) : ℕ :=
  (a.numExamples + a.trainBatchSize - 1) / a.trainBatchSize

/-- `num_update_steps_per_epoch = ceil(len(train_dataloader) /
gradient_accumulation_steps)` (line 494). -/
def numUpdateStepsPerEpoch (a : Args) : ℕ :=
  (numBatches a + a.gradientAccumulationSteps - 1) / a.gradientAccumulationSteps

/-- `num_train_epochs = ceil(max_train_steps / num_update_steps_per_epoch)`
(line 498). -/
def numTrainEpochs (a : Args) : ℕ :=
  (a.maxTrainSteps + numUpdateStepsPerEpoch a - 1) / numUpdateStepsPerEpoch a

/-- Modelled from the spec: the external accelerate collaborator's
`sync_gradients` flag, not part of this repository. `Accelerator.accumulate`
counts micro-batches and synchronizes gradients when the count reaches a
multiple of `gradient_accumulation_steps` (spec §4.5 "Accumulation
boundary: after `gradient_accumulation_steps` micro-batches, gradients are
synchronized across distributed workers"). -/
def syncGrad (a : Args) (micro : ℕ) : Bool :=
  micro % a.gradientAccumulationSteps == 0

/-- One iteration of the inner loop of `main` (lines 630-714): forward
passes (vae encode, text encoder, unet — lines 634-653), target selection
with the unknown-prediction-type failure (lines 656-661), loss computation
(lines 663-677), optimizer step — a real parameter update only when
gradients were synchronized, per the prepared-optimizer contract of the
external accelerate collaborator (line 689) —, the EMA step, which the
source invokes unconditionally on every micro-batch (lines 691-692, outside
any `sync_gradients` guard), and the post-accumulation block incrementing
`global_step` and possibly saving (lines 708-714). -/
def microBatchStep (a : Args) (s : LoopState) : LoopState :=
  let ev0 := s.events ++ [Event.forwardPass]
  if a.predictionType = "epsilon" ∨ a.predictionType = "v_prediction" then
    let ev1 := ev0 ++ [Event.lossComputed]
    let micro := s.micro + 1
    let sync := syncGrad a micro
    let ev2 := ev1 ++ (if sync then [Event.optimizerStep] else [])
    let ev3 := ev2 ++ (if a.useEma then [Event.emaStep] else [])
    if sync then
      let g := s.globalStep + 1
      let ev4 := ev3 ++ [Event.globalStepInc]
      let ev5 := ev4 ++
        (if 0 < g ∧ g % a.saveInterval = 0 ∧ a.saveMinSteps ≤ g then
          [Event.saveInvoked g] else [])
      { globalStep := g, micro := micro, events := ev5, failed := none }
    else
      { globalStep := s.globalStep, micro := micro, events := ev3,
        failed := none }
  else
    { s with events := ev0,
             failed := some (TrainError.unknownPredictionType a.predictionType) }

/-- The per-epoch batch loop: processes up to `n` micro-batches, stopping
on a raised error or on the `global_step >= max_train_steps` break placed
after the batch body (lines 739-740). -/
def runBatches (a : Args) : ℕ → LoopState → LoopState
  | 0, s => s
  | n + 1, s =>
      let s' := microBatchStep a s
      if s'.failed.isSome then s'
      else if a.maxTrainSteps ≤ s'.globalStep then s'
      else runBatches a n s'

/-- The epoch loop of `main` (line 623): each epoch re-runs the batch loop
over the dataloader; a raised error aborts everything. -/
def runEpochs (a : Args) : ℕ → LoopState → LoopState
  | 0, s => s
  | n + 1, s =>
      if s.failed.isSome then s
      else runEpochs a n (runBatches a (numBatches a) s)

/-- A whole run of `main`: setup, the epoch loop, and — when no error was
raised — the unconditional final `save_weights(global_step)` on the main
process (lines 744-745). -/
def runMain (a : Args) : LoopState :=
  let s0 := setupState a
  if s0.failed.isSome then s0
  else
    let s1 := runEpochs a (numTrainEpochs a) s0
    if s1.failed.isSome then s1
    else { s1 with events := s1.events ++ [Event.saveInvoked s1.globalStep] }

/-- The checkpoint steps saved during a run, in save order (the step names
the directory `<output_dir>/<step>` each save writes into). -/
def savesOf (l : List Event) : List ℕ :=
  l.filterMap (fun e => match e with
    | Event.saveInvoked g => some g
    | _ => none)

/-- A concrete configuration whose trainable-parameter selection marks
nothing trainable in either model. -/
def c2args : Args :=
  { withPriorPreservation := false, classDataDir := none, classPrompt := none,
    unetTrainableParams := 0, textTrainableParams := 0,
    predictionType := "epsilon", useEma := false,
    gradientAccumulationSteps := 1, maxTrainSteps := 1,
    numExamples := 1, trainBatchSize := 1, saveInterval := 1,
    saveMinSteps := 0, loraUnetLayer := none, saveNSample := 0,
    conditioningDropoutProb := 0 }

/-- C2: when, after trainable-parameter selection, neither the unet nor the
text encoder has any parameter with `requires_grad` set, the run fails with
a fatal configuration error during setup: no forward pass, no loss
computation and no optimizer step ever executes, and `global_step` stays 0. -/
theorem c2_no_trainable_fails (a : Args)
    (hu : a.unetTrainableParams = 0) (ht : a.textTrainableParams = 0) :
    (runMain a).failed.isSome = true ∧
    Event.forwardPass ∉ (runMain a).events ∧
    Event.lossComputed ∉ (runMain a).events ∧
    Event.optimizerStep ∉ (runMain a).events ∧
    (runMain a).globalStep = 0 := by
  unfold runMain setupState
  cases h : priorPresCheck a with
  | some e => simp
  | none => simp [hu, ht]

/-- Witness for C2 at the concrete all-frozen configuration. -/
theorem c2_no_trainable_fails_witness :
    (runMain c2args).failed.isSome = true ∧
    Event.forwardPass ∉ (runMain c2args).events ∧
    Event.lossComputed ∉ (runMain c2args).events ∧
    Event.optimizerStep ∉ (runMain c2args).events ∧
    (runMain c2args).globalStep = 0 :=
  c2_no_trainable_fails c2args rfl rfl

/-- A concrete prior-preservation configuration missing the class data
directory. -/
def c10args : Args :=
  { withPriorPreservation := true, classDataDir := none,
    classPrompt := some "a photo of a dog",
    unetTrainableParams := 1, textTrainableParams := 0,
    predictionType := "epsilon", useEma := false,
    gradientAccumulationSteps := 1, maxTrainSteps := 1,
    numExamples := 1, trainBatchSize := 1, saveInterval := 1,
    saveMinSteps := 0, loraUnetLayer := none, saveNSample := 0,
    conditioningDropoutProb := 0 }

/-- C10: with prior preservation enabled, a missing class data directory or
a missing class prompt makes setup fail before any model is loaded or any
compute is scheduled: the run aborts with an empty event trace. -/
theorem c10_prior_args_checked_first (a : Args)
    (hp : a.withPriorPreservation = true)
    (h : a.classDataDir = none ∨ a.classPrompt = none) :
    (runMain a).failed.isSome = true ∧ (runMain a).events = [] := by
  unfold runMain setupState priorPresCheck
  rcases h with h | h
  · simp [hp, h]
  · cases hd : a.classDataDir with
    | none => simp [hp, hd]
    | some d => simp [hp, hd, h]

/-- Witness for C10 at the concrete configuration missing its class data
directory. -/
theorem c10_prior_args_checked_first_witness :
    (runMain c10args).failed.isSome = true ∧ (runMain c10args).events = [] :=
  c10_prior_args_checked_first c10args rfl (Or.inl rfl)

theorem runEpochs_of_failed (a : Args) (n : ℕ) (s : LoopState)
    (h : s.failed.isSome = true) : runEpochs a n s = s := by
  cases n with
  | zero => rfl
  | succ n => unfold runEpochs; simp [h]

theorem setupState_success (a : Args) (h : (setupState a).failed = none) :
    setupState a =
      ⟨0, 0, [Event.modelLoaded, Event.modelLoaded, Event.modelLoaded],
        none⟩ := by
  unfold setupState at h ⊢
  cases hp : priorPresCheck a with
  | some e => rw [hp] at h; simp at h
  | none =>
      rw [hp] at h
      by_cases hc : a.unetTrainableParams = 0 ∧ a.textTrainableParams = 0
      · simp [hc] at h
      · simp [hc]

/-- A concrete configuration whose noise scheduler reports the unknown
prediction type "sample". -/
def c7args : Args :=
  { withPriorPreservation := false, classDataDir := none, classPrompt := none,
    unetTrainableParams := 1, textTrainableParams := 0,
    predictionType := "sample", useEma := false,
    gradientAccumulationSteps := 1, maxTrainSteps := 1,
    numExamples := 1, trainBatchSize := 1, saveInterval := 100,
    saveMinSteps := 0, loraUnetLayer := none, saveNSample := 0,
    conditioningDropoutProb := 0 }

/-- C7 counterexample: with an unknown prediction type the run does fail,
but only inside the first micro-batch, after the forward pass has already
executed — not "before any training step (forward pass, ...) executes" as
the claim states. -/
theorem c7_counterexample :
    Event.forwardPass ∈ (runMain c7args).events ∧
    (runMain c7args).failed =
      some (TrainError.unknownPredictionType "sample") := by decide

/-- C7 (amended): with an unknown prediction type, the fatal error is
raised during the first micro-batch of training: the forward pass of that
batch executes, but the run aborts before any loss computation, optimizer
step, `global_step` increment or checkpoint save. -/
theorem c7_unknown_objective (a : Args)
    (hp1 : a.predictionType ≠ "epsilon")
    (hp2 : a.predictionType ≠ "v_prediction")
    (hset : (setupState a).failed = none)
    (hep : 0 < numTrainEpochs a) (hb : 0 < numBatches a) :
    (runMain a).failed =
        some (TrainError.unknownPredictionType a.predictionType) ∧
    Event.forwardPass ∈ (runMain a).events ∧
    Event.lossComputed ∉ (runMain a).events ∧
    Event.optimizerStep ∉ (runMain a).events ∧
    Event.globalStepInc ∉ (runMain a).events ∧
    savesOf (runMain a).events = [] ∧
    (runMain a).globalStep = 0 := by
  have hnot : ¬ (a.predictionType = "epsilon" ∨
      a.predictionType = "v_prediction") := by
    rintro (h | h)
    · exact hp1 h
    · exact hp2 h
  set evs : List Event :=
    [Event.modelLoaded, Event.modelLoaded, Event.modelLoaded] with hevs
  have hstep : microBatchStep a ⟨0, 0, evs, none⟩ =
      ⟨0, 0, evs ++ [Event.forwardPass],
        some (TrainError.unknownPredictionType a.predictionType)⟩ := by
    unfold microBatchStep
    rw [if_neg hnot]
  have hbat : runBatches a (numBatches a) ⟨0, 0, evs, none⟩ =
      ⟨0, 0, evs ++ [Event.forwardPass],
        some (TrainError.unknownPredictionType a.predictionType)⟩ := by
    obtain ⟨k, hk⟩ := Nat.exists_eq_succ_of_ne_zero (Nat.pos_iff_ne_zero.mp hb)
    rw [hk]
    unfold runBatches
    rw [hstep]
    simp
  have heps : runEpochs a (numTrainEpochs a) ⟨0, 0, evs, none⟩ =
      ⟨0, 0, evs ++ [Event.forwardPass],
        some (TrainError.unknownPredictionType a.predictionType)⟩ := by
    obtain ⟨m, hm⟩ :=
      Nat.exists_eq_succ_of_ne_zero (Nat.pos_iff_ne_zero.mp hep)
    rw [hm]
    unfold runEpochs
    rw [if_neg (by simp), hbat]
    exact runEpochs_of_failed a m _ rfl
  have hmain : runMain a =
      ⟨0, 0, evs ++ [Event.forwardPass],
        some (TrainError.unknownPredictionType a.predictionType)⟩ := by
    unfold runMain
    rw [setupState_success a hset]
    rw [if_neg (by simp), heps]
    simp
  rw [hmain, hevs]
  refine ⟨rfl, by simp, by simp, by simp, by simp, by simp [savesOf], rfl⟩

/-- Witness for the amended C7 at the concrete "sample"-objective
configuration. -/
theorem c7_unknown_objective_witness :
    (runMain c7args).failed =
        some (TrainError.unknownPredictionType c7args.predictionType) ∧
    Event.forwardPass ∈ (runMain c7args).events ∧
    Event.lossComputed ∉ (runMain c7args).events ∧
    Event.optimizerStep ∉ (runMain c7args).events ∧
    Event.globalStepInc ∉ (runMain c7args).events ∧
    savesOf (runMain c7args).events = [] ∧
    (runMain c7args).globalStep = 0 :=
  c7_unknown_objective c7args (by decide) (by decide) (by decide)
    (by decide) (by decide)

theorem microBatchStep_counters (a : Args) (s : LoopState)
    (hpred : a.predictionType = "epsilon" ∨
      a.predictionType = "v_prediction") :
    (microBatchStep a s).micro = s.micro + 1 ∧
    (microBatchStep a s).globalStep =
      (if (s.micro + 1) % a.gradientAccumulationSteps = 0
        then s.globalStep + 1 else s.globalStep) := by
  unfold microBatchStep syncGrad
  rw [if_pos hpred]
  by_cases hs : (s.micro + 1) % a.gradientAccumulationSteps = 0
  · simp [hs]
  · simp [hs]

theorem microBatchStep_inv (a : Args) (s : LoopState)
    (h : s.globalStep = s.micro / a.gradientAccumulationSteps) :
    (microBatchStep a s).globalStep =
      (microBatchStep a s).micro / a.gradientAccumulationSteps := by
  by_cases hpred : a.predictionType = "epsilon" ∨
      a.predictionType = "v_prediction"
  · obtain ⟨hm, hg⟩ := microBatchStep_counters a s hpred
    rw [hg, hm]
    by_cases hs : (s.micro + 1) % a.gradientAccumulationSteps = 0
    · rw [if_pos hs, h, Nat.succ_div_of_dvd (Nat.dvd_of_mod_eq_zero hs)]
    · rw [if_neg hs, h, Nat.succ_div_of_not_dvd
        (fun hd => hs (Nat.mod_eq_zero_of_dvd hd))]
  · unfold microBatchStep
    rw [if_neg hpred]
    exact h

theorem runBatches_inv (a : Args) :
    ∀ (n : ℕ) (s : LoopState),
      s.globalStep = s.micro / a.gradientAccumulationSteps →
      (runBatches a n s).globalStep =
        (runBatches a n s).micro / a.gradientAccumulationSteps := by
  intro n
  induction n with
  | zero => intro s h; exact h
  | succ n ih =>
      intro s h
      have h' := microBatchStep_inv a s h
      simp only [runBatches]
      by_cases hf : (microBatchStep a s).failed.isSome = true
      · simp only [hf, if_true]
        exact h'
      · simp only [hf, if_false]
        by_cases hmax : a.maxTrainSteps ≤ (microBatchStep a s).globalStep
        · rw [if_pos hmax]
          exact h'
        · rw [if_neg hmax]
          exact ih _ h'

theorem runEpochs_inv (a : Args) :
    ∀ (n : ℕ) (s : LoopState),
      s.globalStep = s.micro / a.gradientAccumulationSteps →
      (runEpochs a n s).globalStep =
        (runEpochs a n s).micro / a.gradientAccumulationSteps := by
  intro n
  induction n with
  | zero => intro s h; exact h
  | succ n ih =>
      intro s h
      unfold runEpochs
      by_cases hf : s.failed.isSome = true
      · rw [if_pos hf]; exact h
      · rw [if_neg hf]
        exact ih _ (runBatches_inv a _ _ h)

theorem setupState_counters (a : Args) :
    (setupState a).globalStep = 0 ∧ (setupState a).micro = 0 := by
  unfold setupState
  cases priorPresCheck a with
  | some e => exact ⟨rfl, rfl⟩
  | none =>
      by_cases hc : a.unetTrainableParams = 0 ∧ a.textTrainableParams = 0
      · rw [if_pos hc]; exact ⟨rfl, rfl⟩
      · rw [if_neg hc]; exact ⟨rfl, rfl⟩

theorem runMain_inv (a : Args) :
    (runMain a).globalStep = (runMain a).micro /
      a.gradientAccumulationSteps := by
  unfold runMain
  obtain ⟨hg0, hm0⟩ := setupState_counters a
  have h0 : (setupState a).globalStep =
      (setupState a).micro / a.gradientAccumulationSteps := by
    rw [hg0, hm0, Nat.zero_div]
  have h1 := runEpochs_inv a (numTrainEpochs a) _ h0
  by_cases hf : (setupState a).failed.isSome = true
  · simp only [hf, if_true]
    exact h0
  · simp only [hf, if_false]
    by_cases hf1 : (runEpochs a (numTrainEpochs a) (setupState a)).failed.isSome = true
    · simp only [hf1, if_true]
      exact h1
    · simp only [hf1, if_false]
      exact h1

/-- A concrete configuration with gradient accumulation 2 over four
micro-batches. -/
def c6args : Args :=
  { withPriorPreservation := false, classDataDir := none, classPrompt := none,
    unetTrainableParams := 1, textTrainableParams := 0,
    predictionType := "epsilon", useEma := false,
    gradientAccumulationSteps := 2, maxTrainSteps := 2,
    numExamples := 4, trainBatchSize := 1, saveInterval := 100,
    saveMinSteps := 0, loraUnetLayer := none, saveNSample := 0,
    conditioningDropoutProb := 0 }

/-- C6: `global_step` increments by exactly 1 per
`gradient_accumulation_steps` micro-batches, and the accumulation boundary
is the only point where it increments: a micro-batch increments
`global_step` exactly when the micro-batch counter reaches a multiple of
`gradient_accumulation_steps`, it leaves it unchanged otherwise, and over a
whole run `global_step` equals the number of processed micro-batches
divided by `gradient_accumulation_steps`. -/
theorem c6_global_step (a : Args) (s : LoopState)
    (_hacc : 0 < a.gradientAccumulationSteps)
    (hpred : a.predictionType = "epsilon" ∨
      a.predictionType = "v_prediction") :
    ((microBatchStep a s).micro = s.micro + 1 ∧
     (microBatchStep a s).globalStep =
       (if (s.micro + 1) % a.gradientAccumulationSteps = 0
         then s.globalStep + 1 else s.globalStep)) ∧
    (runMain a).globalStep =
      (runMain a).micro / a.gradientAccumulationSteps :=
  ⟨microBatchStep_counters a s hpred, runMain_inv a⟩

/-- Witness for C6 at the accumulation-2 configuration and the initial
loop state. -/
theorem c6_global_step_witness :
    ((microBatchStep c6args ⟨0, 0, [], none⟩).micro = 0 + 1 ∧
     (microBatchStep c6args ⟨0, 0, [], none⟩).globalStep =
       (if (0 + 1) % c6args.gradientAccumulationSteps = 0
         then 0 + 1 else 0)) ∧
    (runMain c6args).globalStep =
      (runMain c6args).micro / c6args.gradientAccumulationSteps :=
  c6_global_step c6args ⟨0, 0, [], none⟩ (by decide) (Or.inl rfl)

/-- A concrete EMA-enabled configuration with gradient accumulation 2 and
two micro-batches. -/
def c4args : Args :=
  { withPriorPreservation := false, classDataDir := none, classPrompt := none,
    unetTrainableParams := 1, textTrainableParams := 0,
    predictionType := "epsilon", useEma := true,
    gradientAccumulationSteps := 2, maxTrainSteps := 1,
    numExamples := 2, trainBatchSize := 1, saveInterval := 100,
    saveMinSteps := 0, loraUnetLayer := none, saveNSample := 0,
    conditioningDropoutProb := 0 }

/-- C4 counterexample: with gradient accumulation 2 and EMA enabled, a run
processing two micro-batches performs exactly one synchronized optimizer
update, yet the EMA tracker steps twice — once per micro-batch, including
the first, non-synchronized one — so EMA does not step "exactly once per
gradient_accumulation_steps micro-batches". -/
theorem c4_counterexample :
    (runMain c4args).micro = 2 ∧
    (runMain c4args).events.count Event.emaStep = 2 ∧
    (runMain c4args).events.count Event.globalStepInc = 1 ∧
    (runMain c4args).events.count Event.optimizerStep = 1 := by decide

/-- C4 (amended): when EMA is enabled, `ema_unet.step` is invoked on every
micro-batch — the call sits outside the `sync_gradients` guard — so it
steps once per micro-batch (hence `gradient_accumulation_steps` times per
optimizer update), not only at accumulation boundaries. -/
theorem c4_ema_steps_every_micro_batch (a : Args) (s : LoopState)
    (hema : a.useEma = true)
    (hpred : a.predictionType = "epsilon" ∨
      a.predictionType = "v_prediction") :
    (microBatchStep a s).events.count Event.emaStep =
      s.events.count Event.emaStep + 1 := by
  unfold microBatchStep
  rw [if_pos hpred]
  by_cases hs : syncGrad a (s.micro + 1) = true
  · by_cases hsave : (s.globalStep + 1) % a.saveInterval = 0 ∧
        a.saveMinSteps ≤ s.globalStep + 1
    · simp [hs, hsave, hema, List.count_append]
    · simp [hs, hsave, hema, List.count_append]
  · simp [hs, hema, List.count_append]

/-- Witness for the amended C4 at the EMA-enabled configuration and the
initial loop state. -/
theorem c4_ema_steps_every_micro_batch_witness :
    (microBatchStep c4args ⟨0, 0, [], none⟩).events.count Event.emaStep =
      ([] : List Event).count Event.emaStep + 1 :=
  c4_ema_steps_every_micro_batch c4args ⟨0, 0, [], none⟩ rfl (Or.inl rfl)

/-- The end-to-end scenario of the spec: 10 examples, batch size 1,
`max_train_steps = 5`, `save_interval = 5`. -/
def c9args : Args :=
  { withPriorPreservation := false, classDataDir := none, classPrompt := none,
    unetTrainableParams := 1, textTrainableParams := 0,
    predictionType := "epsilon", useEma := false,
    gradientAccumulationSteps := 1, maxTrainSteps := 5,
    numExamples := 10, trainBatchSize := 1, saveInterval := 5,
    saveMinSteps := 0, loraUnetLayer := none, saveNSample := 0,
    conditioningDropoutProb := 0 }

/-- C9 counterexample: in the 10-example, `max_train_steps = 5`,
`save_interval = 5` run, the checkpoint directory named 5 is written twice
— once by the in-loop save at global step 5 and once by the unconditional
final `save_weights(global_step)` after the loop — so a snapshot directory
is rewritten after creation. -/
theorem c9_counterexample :
    savesOf (runMain c9args).events = [5, 5] ∧
    ¬ (savesOf (runMain c9args).events).Nodup := by decide

/-- C9 (amended): the run produces exactly one distinct checkpoint
directory, named 5, but saves into it twice: the final unconditional
`save_weights(global_step)` re-saves into the directory already written by
the in-loop save at step 5, overwriting its contents. -/
theorem c9_final_save_rewrites_last_snapshot :
    (savesOf (runMain c9args).events).dedup = [5] ∧
    (savesOf (runMain c9args).events).count 5 = 2 := by decide

/-- One dataset example as handed to `collate_fn`: tokenized instance,
class and unconditional prompts, plus instance and class image tensors. -/
structure TrainExample where
  instancePromptIds : List ℕ
  classPromptIds : List ℕ
  unconditionalPromptIds : List ℕ
  instanceImage : List ℚ
  classImage : List ℚ
deriving Repr, DecidableEq, Inhabited

/-- The prompt-id list assembled by `collate_fn` before dropout (lines
388-394): the instance prompts of all examples, then — with prior
preservation — the class prompts of the same examples in the same order. -/
def collateInputIdsRaw (withPrior : Bool) (examples : List TrainExample) :
    List (List ℕ) :=
  examples.map (fun e => e.instancePromptIds) ++
    (if withPrior then examples.map (fun e => e.classPromptIds) else [])

/-- The pixel batch assembled by `collate_fn` (lines 389-395): instance
images first, then — with prior preservation — class images. -/
def collatePixelValues (withPrior : Bool) (examples : List TrainExample) :
    List (List ℚ) :=
  examples.map (fun e => e.instanceImage) ++
    (if withPrior then examples.map (fun e => e.classImage) else [])

/-- `unconditional_ids = [example["unconditional_prompt_ids"] for example
in examples] * 2` (line 399): the per-example unconditional encodings,
duplicated. -/
def uncondIds (examples : List TrainExample) : List (List ℕ) :=
  examples.map (fun e => e.unconditionalPromptIds) ++
    examples.map (fun e => e.unconditionalPromptIds)

/-- The conditioning-dropout loop of `collate_fn` (lines 398-402): when the
dropout probability is positive, slot `i` of `input_ids` is replaced by
`unconditional_ids[i]` exactly when the i-th uniform draw is ≤ the
probability; each slot consumes its own independent draw. -/
def applyConditioningDropout (p : ℚ) (draws : ℕ → ℚ)
    (uncond ids : List (List ℕ)) : List (List ℕ) :=
  if 0 < p then
    (List.range ids.length).map (fun i =>
      if draws i ≤ p then uncond.getD i [] else ids.getD i [])
  else ids

/-- `collate_fn` (lines 387-422): the `input_ids` and `pixel_values` of a
collated batch, with the uniform draws of the dropout loop passed in as an
explicit randomness stream consumed by slot index. -/
def collate_fn (withPrior : Bool) (p : ℚ) (draws : ℕ → ℚ)
    (examples : List TrainExample) : List (List ℕ) × List (List ℚ) :=
  (applyConditioningDropout p draws (uncondIds examples)
      (collateInputIdsRaw withPrior examples),
   collatePixelValues withPrior examples)

/-- C8: with prior preservation active, the collated batch concatenates all
instance examples first, then all class examples, along the batch axis, so
splitting at the midpoint (the number of examples) by index recovers the
two groups: unconditionally for `pixel_values`, and for `input_ids` as
built by the collation (dropout disabled). -/
theorem c8_batch_ordering (p : ℚ) (draws : ℕ → ℚ)
    (examples : List TrainExample) :
    (collate_fn true p draws examples).2 =
      examples.map (fun e => e.instanceImage) ++
        examples.map (fun e => e.classImage) ∧
    (collate_fn true p draws examples).2.take examples.length =
      examples.map (fun e => e.instanceImage) ∧
    (collate_fn true p draws examples).2.drop examples.length =
      examples.map (fun e => e.classImage) ∧
    (collate_fn true 0 draws examples).1 =
      examples.map (fun e => e.instancePromptIds) ++
        examples.map (fun e => e.classPromptIds) ∧
    (collate_fn true 0 draws examples).1.take examples.length =
      examples.map (fun e => e.instancePromptIds) ∧
    (collate_fn true 0 draws examples).1.drop examples.length =
      examples.map (fun e => e.classPromptIds) := by
  have hpix : (collate_fn true p draws examples).2 =
      examples.map (fun e => e.instanceImage) ++
        examples.map (fun e => e.classImage) := by
    simp [collate_fn, collatePixelValues]
  have hids : (collate_fn true 0 draws examples).1 =
      examples.map (fun e => e.instancePromptIds) ++
        examples.map (fun e => e.classPromptIds) := by
    simp [collate_fn, applyConditioningDropout, collateInputIdsRaw]
  have hli : (examples.map (fun e => e.instanceImage)).length =
      examples.length := List.length_map _ _
  have hlp : (examples.map (fun e => e.instancePromptIds)).length =
      examples.length := List.length_map _ _
  refine ⟨hpix, ?_, ?_, hids, ?_, ?_⟩
  · rw [hpix, ← hli, List.take_left]
  · rw [hpix, ← hli, List.drop_left]
  · rw [hids, ← hlp, List.take_left]
  · rw [hids, ← hlp, List.drop_left]

theorem getD_map_append_left (f : TrainExample → List ℕ)
    (xs : List TrainExample) (rest : List (List ℕ)) (i : ℕ)
    (hi : i < xs.length) :
    (xs.map f ++ rest).getD i [] = f (xs.getD i default) := by
  rw [List.getD_eq_getElem?_getD,
    List.getElem?_append_left (by simpa using hi),
    List.getElem?_map, List.getElem?_eq_getElem hi,
    List.getD_eq_getElem xs default hi]
  rfl

theorem getD_map_append_right (f g : TrainExample → List ℕ)
    (xs : List TrainExample) (i : ℕ) (hi : i < xs.length) :
    (xs.map f ++ xs.map g).getD (xs.length + i) [] =
      g (xs.getD i default) := by
  rw [List.getD_eq_getElem?_getD,
    List.getElem?_append_right (by simp),
    List.getElem?_map]
  have hidx : xs.length + i - (xs.map f).length = i := by simp
  rw [hidx, List.getElem?_eq_getElem hi, List.getD_eq_getElem xs default hi]
  rfl

theorem applyConditioningDropout_getD (p : ℚ) (hp : 0 < p)
    (draws : ℕ → ℚ) (uncond ids : List (List ℕ)) (i : ℕ)
    (hi : i < ids.length) :
    (applyConditioningDropout p draws uncond ids).getD i [] =
      if draws i ≤ p then uncond.getD i [] else ids.getD i [] := by
  unfold applyConditioningDropout
  rw [if_pos hp, List.getD_eq_getElem?_getD, List.getElem?_map,
    List.getElem?_range hi]
  rfl

/-- C5 (amended): with prior preservation active and dropout probability
`p > 0`, each of the 2B batch slots is dropped out independently: instance
slot `i` is replaced exactly when draw `i` is ≤ p, and prior slot `B + i`
exactly when draw `B + i` is ≤ p; the substituted encoding in both slots is
the same unconditional encoding of example `i`, but the two decisions
consume independent draws rather than a shared per-example one. -/
theorem c5_dropout_independent_per_slot (p : ℚ) (draws : ℕ → ℚ)
    (examples : List TrainExample) (i : ℕ)
    (hp : 0 < p) (hi : i < examples.length) :
    (collate_fn true p draws examples).1.getD i [] =
      (if draws i ≤ p
        then (examples.getD i default).unconditionalPromptIds
        else (examples.getD i default).instancePromptIds) ∧
    (collate_fn true p draws examples).1.getD (examples.length + i) [] =
      (if draws (examples.length + i) ≤ p
        then (examples.getD i default).unconditionalPromptIds
        else (examples.getD i default).classPromptIds) := by
  have hraw : collateInputIdsRaw true examples =
      examples.map (fun e => e.instancePromptIds) ++
        examples.map (fun e => e.classPromptIds) := by
    simp [collateInputIdsRaw]
  have hlen : (collateInputIdsRaw true examples).length =
      examples.length + examples.length := by
    rw [hraw]; simp
  constructor
  · rw [show (collate_fn true p draws examples).1 =
        applyConditioningDropout p draws (uncondIds examples)
          (collateInputIdsRaw true examples) from rfl,
      applyConditioningDropout_getD p hp draws _ _ i (by omega)]
    by_cases hd : draws i ≤ p
    · rw [if_pos hd, if_pos hd]
      exact getD_map_append_left _ examples _ i hi
    · rw [if_neg hd, if_neg hd, hraw]
      exact getD_map_append_left _ examples _ i hi
  · rw [show (collate_fn true p draws examples).1 =
        applyConditioningDropout p draws (uncondIds examples)
          (collateInputIdsRaw true examples) from rfl,
      applyConditioningDropout_getD p hp draws _ _ (examples.length + i)
        (by omega)]
    by_cases hd : draws (examples.length + i) ≤ p
    · rw [if_pos hd, if_pos hd]
      exact getD_map_append_right _ _ examples i hi
    · rw [if_neg hd, if_neg hd, hraw]
      exact getD_map_append_right _ _ examples i hi

/-- A concrete example whose class prompt differs from the unconditional
prompt. -/
def c5example : TrainExample :=
  { instancePromptIds := [10], classPromptIds := [20],
    unconditionalPromptIds := [0], instanceImage := [1], classImage := [2] }

/-- A concrete randomness stream: the draw for slot 0 falls below the
dropout probability 1/2, the draw for slot 1 does not. -/
def c5draws : ℕ → ℚ := fun i => if i = 0 then 0 else 1

/-- C5 counterexample: with prior preservation, dropout probability 1/2 and
the draws above, the instance slot of example 0 is replaced by the
unconditional encoding while its corresponding prior slot keeps the class
prompt — the two slots are not dropped out identically. -/
theorem c5_counterexample :
    (collate_fn true (1/2) c5draws [c5example]).1.getD 0 [] =
      c5example.unconditionalPromptIds ∧
    (collate_fn true (1/2) c5draws [c5example]).1.getD 1 [] =
      c5example.classPromptIds ∧
    c5example.classPromptIds ≠ c5example.unconditionalPromptIds := by
  refine ⟨?_, ?_, by decide⟩ <;>
    norm_num [collate_fn, applyConditioningDropout, uncondIds,
      collateInputIdsRaw, c5draws, c5example, List.range_succ, List.getD]

/-- Witness for the amended C5 at the concrete one-example batch. -/
theorem c5_dropout_independent_per_slot_witness :
    ((collate_fn true (1/2) c5draws [c5example]).1.getD 0 [] =
      (if c5draws 0 ≤ 1/2
        then ([c5example].getD 0 default).unconditionalPromptIds
        else ([c5example].getD 0 default).instancePromptIds)) ∧
    ((collate_fn true (1/2) c5draws [c5example]).1.getD
        ([c5example].length + 0) [] =
      (if c5draws ([c5example].length + 0) ≤ 1/2
        then ([c5example].getD 0 default).unconditionalPromptIds
        else ([c5example].getD 0 default).classPromptIds)) :=
  c5_dropout_independent_per_slot (1/2) c5draws [c5example] 0
    (by norm_num) (by decide)

/-- Filesystem artifacts written by one `save_weights(step)` call. -/
inductive Artifact where
  | fullPipelineWeights (dir : String)
  | sampleGrid (file : String)
deriving DecidableEq, Repr

/-- `save_dir = os.path.join(args.output_dir, f"{step}")` (line 519). -/
def saveDirOf (outputDir : String) (step : ℕ) : String :=
  outputDir ++ "/" ++ toString step

/-- The artifacts persisted by `save_weights` (lines 516-609). When a LoRA
layer spec is present — the branch condition at line 559 reads
`args.lora_unet_layer != None or args.lora_unet_layer != None` in the
source, both disjuncts naming the unet spec, mirrored here verbatim — the
branch only rescales the in-memory adapters with `tune_lora_scale`; the
`save_lora_weight` calls are commented out, so no weight file is written.
Otherwise `pipeline.save_pretrained(save_dir)` persists the full model
weights (line 578). Sample rendering (lines 580-604) writes the contact
sheet `<save_dir>/samples/<step>.jpg` when `save_n_sample > 0`. -/
def save_weights_artifacts (a : Args) (outputDir : String) (step : ℕ) :
    List Artifact :=
  (if a.loraUnetLayer ≠ none ∨ a.loraUnetLayer ≠ none then
      []
    else
      [Artifact.fullPipelineWeights (saveDirOf outputDir step)]) ++
    (if 0 < a.saveNSample then
        [Artifact.sampleGrid
          (saveDirOf outputDir step ++ "/samples/" ++ toString step ++
            ".jpg")]
      else [])

/-- A concrete configuration with LoRA adapters in use on the unet and one
sample image per save. -/
def c3args : Args :=
  { withPriorPreservation := false, classDataDir := none, classPrompt := none,
    unetTrainableParams := 1, textTrainableParams := 0,
    predictionType := "epsilon", useEma := false,
    gradientAccumulationSteps := 1, maxTrainSteps := 400,
    numExamples := 10, trainBatchSize := 1, saveInterval := 100,
    saveMinSteps := 0, loraUnetLayer := some "CrossAttention",
    saveNSample := 1, conditioningDropoutProb := 0 }

/-- C3: evaluation of `save_weights` at step 400. With LoRA adapters in use
the checkpoint directory receives only the sample contact sheet and no
weight artifact at all — neither the base weights nor the adapter deltas
are persisted, contradicting the claimed base+adapter persistence — while
without adapters the full pipeline weights are saved under the directory
named by the step. -/
theorem c3_lora_checkpoint_saves_no_weights :
    save_weights_artifacts c3args "output" 400 =
      [Artifact.sampleGrid "output/400/samples/400.jpg"] ∧
    (∀ d : String, Artifact.fullPipelineWeights d ∉
      save_weights_artifacts c3args "output" 400) ∧
    save_weights_artifacts { c3args with loraUnetLayer := none }
        "output" 400 =
      [Artifact.fullPipelineWeights "output/400",
       Artifact.sampleGrid "output/400/samples/400.jpg"] := by
  refine ⟨rfl, ?_, rfl⟩
  intro d
  simp [save_weights_artifacts, c3args, saveDirOf]

end Dreambooth
